import Mathlib

/-!
Shallow embedding of the faux-rag repository (FastAPI RAG service):
`app/services/document_processor.py`, `app/services/vector_store.py`,
`app/api/chat.py`, `app/api/upload.py`, with the configuration constants of
`app/config.py`.

Python strings are modelled as `List Char` (`PyStr`); Python `int` sizes and
lengths are `Nat` (every value the code computes with is a length, hence
non-negative); code that can raise is modelled with `Except`.
-/

/-- Python strings as character lists. -/
abbrev PyStr := List Char

/-- The set of characters the Python `str.strip()` method removes: the characters `c`
with `c.isspace()` true (Unicode white space plus the `\x1c`-`\x1f` group). -/
def pyIsSpace (c : Char) : Bool :=
  let n := c.toNat
  decide ((9 ≤ n ∧ n ≤ 13) ∨ (28 ≤ n ∧ n ≤ 31) ∨ n = 32 ∨ n = 0x85 ∨
    n = 0xA0 ∨ n = 0x1680 ∨ (0x2000 ≤ n ∧ n ≤ 0x200A) ∨ n = 0x2028 ∨
    n = 0x2029 ∨ n = 0x202F ∨ n = 0x205F ∨ n = 0x3000)

/-- Python `s.strip()`: remove leading and trailing whitespace. -/
def pyStrip (s : PyStr) : PyStr :=
  ((s.dropWhile pyIsSpace).reverse.dropWhile pyIsSpace).reverse

/-- Predicate `hasPrefixSeq p t`: holds when `p` is a leading segment of `t`. -/
def hasPrefixSeq : PyStr → PyStr → Bool
  | [], _ => true
  | _ :: _, [] => false
  | a :: as, b :: bs => a = b && hasPrefixSeq as bs

/-- Predicate `hasSubSeq sep t`: `re.search(re.escape(sep), text)` finds a match, i.e.
`sep` occurs contiguously inside `t`. -/
def hasSubSeq (sep : PyStr) : PyStr → Bool
  | [] => hasPrefixSeq sep []
  | t@(_ :: ts) => hasPrefixSeq sep t || hasSubSeq sep ts

/-- The pieces of `t` between non-overlapping left-to-right occurrences of the
literal separator `sep` (the pieces of `re.split` with the separator tokens
dropped).  Each step consumes at least one character, so any `fuel ≥ t.length`
makes the fuel bound unreachable; `sep` is never `[]` at the call sites. -/
def splitParts (sep : PyStr) : Nat → PyStr → List PyStr
  | _, [] => [[]]
  | 0, t => [t]
  | f + 1, t@(c :: rest) =>
    if hasPrefixSeq sep t ∧ sep ≠ [] then
      -- drops `t.drop sep.length`, written on `rest` (one char already consumed)
      [] :: splitParts sep f (rest.drop (sep.length - 1))
    else
      match splitParts sep f rest with
      | [] => [[c]]
      | p :: ps => (c :: p) :: ps

/-- Model of `_split_text_with_regex(text, re.escape(sep), keep_separator=True)` for a
non-empty literal `sep`: split at the separator, re-attach each separator
occurrence to the front of the following piece, drop empty strings. -/
def splitKeepSep (sep : PyStr) (t : PyStr) : List PyStr :=
  match splitParts sep t.length t with
  | [] => []
  | p :: ps => (p :: ps.map (fun q => sep ++ q)).filter (fun s => s ≠ [])

/-- The separator-selection loop of `RecursiveCharacterTextSplitter._split_text`:
returns the first separator of the list that is `""` or occurs in `text`
(defaulting to the last one), paired with the remaining separators. -/
def chooseSep (text : PyStr) : List PyStr → PyStr × List PyStr
  | [] => ([], [])
  | [s] => if s = [] then ([], []) else (s, [])
  | s :: rest =>
    if s = [] then ([], [])
    else if hasSubSeq s text then (s, rest)
    else chooseSep text rest

/-- The overlap-eviction `while` loop inside `_merge_splits` (specialised to
separator `""`, the value passed when `keep_separator` is true, so the
separator length terms are 0): pop leading splits while the running total
exceeds `chunk_overlap`, or adding the next split would exceed `chunk_size`
with a non-empty total.  The loop never runs on an empty buffer because the
total is then 0. -/
def popWhile (cs co xlen : Nat) : List PyStr → Nat → List PyStr × Nat
  | [], total => ([], total)
  | d :: rest, total =>
    if co < total ∨ (cs < total + xlen ∧ 0 < total) then
      popWhile cs co xlen rest (total - d.length)
    else (d :: rest, total)

/-- The accumulation loop of `_merge_splits` (separator `""`): greedily pack
splits into a window of at most `chunk_size` characters; when the next split
would overflow, emit the stripped join of the window (if non-empty) and shrink
the window with `popWhile` to keep at most `chunk_overlap` characters of
trailing context. -/
def mergeGo (cs co : Nat) : List PyStr → List PyStr → Nat → List PyStr → List PyStr
  | [], cur, _, docs =>
    let doc := pyStrip cur.flatten
    if doc = [] then docs else docs ++ [doc]
  | d :: rest, cur, total, docs =>
    let xlen := d.length
    if cs < total + xlen ∧ cur ≠ [] then
      let doc := pyStrip cur.flatten
      let docs2 := if doc = [] then docs else docs ++ [doc]
      let pr := popWhile cs co xlen cur total
      mergeGo cs co rest (pr.1 ++ [d]) (pr.2 + xlen) docs2
    else
      mergeGo cs co rest (cur ++ [d]) (total + xlen) docs

/-- Model of `TextSplitter._merge_splits(splits, "")`. -/
def mergeSplits (cs co : Nat) (splits : List PyStr) : List PyStr :=
  mergeGo cs co splits [] 0 []

/-- Model of `RecursiveCharacterTextSplitter._split_text(text, separators)` with
`keep_separator=True`, `is_separator_regex=False`, `length_function=len`:
choose the separator, split, then run the classification loop — splits shorter
than `chunk_size` are buffered in `good` and merged; an oversized split flushes
the buffer and is either kept as-is (no separators left) or split recursively.
Every recursive call passes a strictly shorter separator list, so any
`fuel ≥ separators.length` makes the fuel bound unreachable (the caller passes
the length of the full separator list). -/
def splitRecF (cs co : Nat) : Nat → List PyStr → PyStr → List PyStr
  | 0, _, text => [text]
  | f + 1, seps, text =>
    let sn := chooseSep text seps
    let newSeps := sn.2
    let splits :=
      if sn.1 = [] then (text.map (fun c => [c])).filter (fun s => s ≠ [])
      else splitKeepSep sn.1 text
    let step := fun (acc : List PyStr × List PyStr) (s : PyStr) =>
      if s.length < cs then (acc.1, acc.2 ++ [s])
      else
        let pre := if acc.2 = [] then [] else mergeSplits cs co acc.2
        let mid := if newSeps = [] then [s] else splitRecF cs co f newSeps s
        (acc.1 ++ pre ++ mid, [])
    let fin := splits.foldl step ([], [])
    fin.1 ++ (if fin.2 = [] then [] else mergeSplits cs co fin.2)

/-- The separator list `chunk_text` configures:
`["\n\n", "\n", ". ", " ", ""]`. -/
def chunkSeparators : List PyStr :=
  [['\n', '\n'], ['\n'], ['.', ' '], [' '], []]

/-- Model of `chunk_text(text, chunk_size, chunk_overlap)` from
`app/services/document_processor.py`: return `[]` for empty or
whitespace-only input; otherwise build a `RecursiveCharacterTextSplitter`
(whose constructor raises when the overlap exceeds the chunk size), split, and
keep only the chunks whose stripped length exceeds 50. -/
def chunk_text (text : PyStr) (chunk_size : Nat := 1000)
    (chunk_overlap : Nat := 200) : Except PyStr (List PyStr) :=
  if text = [] ∨ pyStrip text = [] then .ok []
  else if chunk_size < chunk_overlap then
    .error (("Got a larger chunk overlap (" ++ Nat.repr chunk_overlap ++
      ") than chunk size (" ++ Nat.repr chunk_size ++
      "), should be smaller.").toList)
  else
    .ok (((splitRecF chunk_size chunk_overlap chunkSeparators.length
      chunkSeparators text).filter (fun c => 50 < (pyStrip c).length)))

/-! ## Configuration (`app/config.py`) -/

/-- Constant `MAX_FILE_SIZE_MB = 15`. -/
def MAX_FILE_SIZE_MB : Nat := 15

/-- Constant `ALLOWED_EXTENSIONS`: the Python set of the extensions .pdf,
.txt and .docx, modelled as a list; only membership and the joined detail
string are ever used, and the join order of a set is unspecified — we fix the
literal order. -/
def ALLOWED_EXTENSIONS : List PyStr :=
  [".pdf".toList, ".txt".toList, ".docx".toList]

/-- Constant `CHUNK_SIZE = 1000`. -/
def CHUNK_SIZE : Nat := 1000

/-- Constant `CHUNK_OVERLAP = 200`. -/
def CHUNK_OVERLAP : Nat := 200

/-! ## Vector store (`app/services/vector_store.py`)

The Pinecone index is modelled as a list of entries; `upsert` replaces any
entry whose id collides with an incoming one and appends the incoming
vectors; `delete(filter={"file_id": f})` removes exactly the entries whose
metadata `file_id` equals `f`. -/

/-- The metadata bag `upsert_chunks` attaches to every vector.  The caller
(`upload_file`) additionally merges in `upload_date` and `file_size_mb`,
which never collide with these five keys and which no consumer reads, so they
are not modelled. -/
structure ChunkMetadata where
  file_id : PyStr
  filename : PyStr
  chunk_index : Nat
  chunk_text : PyStr
  text_length : Nat
deriving DecidableEq

/-- A vector-index entry: the `{"id", "values", "metadata"}` dictionary
`upsert_chunks` builds. -/
structure IndexEntry where
  id : PyStr
  values : List Float
  metadata : ChunkMetadata

/-- The vector-preparation loop of `upsert_chunks`
(`for idx, (chunk, embedding) in enumerate(zip(chunks, embeddings))`):
`zip` stops at the shorter list; `idx` is the running 0-based index; the
vector id is `f"{file_id}_chunk_{idx}"`; metadata stores the chunk truncated
to its first 1000 characters (a Pinecone metadata-size accommodation) next to
the full chunk length. -/
def buildVectors (file_id filename : PyStr) :
    Nat → List PyStr → List (List Float) → List IndexEntry
  | _, [], _ => []
  | _, _ :: _, [] => []
  | idx, chunk :: cs, emb :: es =>
    { id := file_id ++ "_chunk_".toList ++ (Nat.repr idx).toList
      values := emb
      metadata :=
        { file_id := file_id
          filename := filename
          chunk_index := idx
          chunk_text := chunk.take 1000
          text_length := chunk.length } } ::
      buildVectors file_id filename (idx + 1) cs es

/-- The batched-upsert loop of `upsert_chunks`
(`for i in range(0, len(vectors), batch_size)` with `batch_size = 100`):
returns `total_upserted`, the sum of the batch lengths. -/
def batchTotal : List IndexEntry → Nat
  | [] => 0
  | v :: vs => ((v :: vs).take 100).length + batchTotal ((v :: vs).drop 100)
termination_by l => l.length
decreasing_by simp only [List.length_drop, List.length_cons]; omega

/-- Model of `VectorStore.upsert_chunks(file_id, filename, chunks, embeddings)`:
raise `ValueError` when the chunk and embedding counts differ; otherwise
build the vectors and upsert them in sequential batches of 100, returning the
total number of vectors upserted.  The generated ids are pairwise distinct
(distinct decimal indices), so the batched upserts amount to one replacement
of any colliding old entries followed by appending all the new vectors. -/
def upsert_chunks (file_id filename : PyStr) (chunks : List PyStr)
    (embeddings : List (List Float)) (index : List IndexEntry) :
    Except PyStr (Nat × List IndexEntry) :=
  if chunks.length ≠ embeddings.length then
    .error ("Number of chunks must match number of embeddings".toList)
  else
    let vectors := buildVectors file_id filename 0 chunks embeddings
    let newIds := vectors.map (fun v => v.id)
    .ok (batchTotal vectors,
      index.filter (fun e => ¬ newIds.contains e.id) ++ vectors)

/-- Model of `VectorStore.delete_by_file_id(file_id)`: delete by the metadata filter
`{"file_id": file_id}` and return `True`.  (The `except` branch returning
`False` fires only when the external Pinecone call itself raises; the state
model captures the successful delete.) -/
def delete_by_file_id (file_id : PyStr) (index : List IndexEntry) :
    Bool × List IndexEntry :=
  (true, index.filter (fun e => e.metadata.file_id ≠ file_id))

/-! ## Chat endpoint (`app/api/chat.py`)

The two external gateway calls are modelled as inputs: `searchMatches` is
what `vector_store.search(...)` returned (already ranked), `llmReply` is what
`llm_service.generate_response(...)` returned.  The trace records whether and
how each gateway was invoked. -/

/-- The pydantic request model `ChatRequest`: `message` required, `file_ids`
defaulting to `None`, `top_k` defaulting to `5`.  `top_k` is a plain `int`
(modelled as `Int`): pydantic performs no sign or range validation on it. -/
structure ChatRequest where
  message : PyStr
  file_ids : Option (List PyStr) := none
  top_k : Int := 5

/-- One Pinecone match: a score and the stored metadata. -/
structure SearchMatch where
  id : PyStr
  score : Float
  metadata : ChunkMetadata

/-- The response model `Source`. -/
structure Source where
  filename : PyStr
  chunk_text : PyStr
  chunk_index : Nat
  similarity_score : Float

/-- The response model `ChatResponse`. -/
structure ChatResponse where
  reply : PyStr
  sources : List Source
  num_sources : Nat

/-- Either an `HTTPException` or a `ChatResponse`. -/
inductive ChatResult where
  | httpError (status : Nat) (detail : PyStr)
  | response (r : ChatResponse)

/-- The arguments `vector_store.search` was invoked with (besides the query
embedding). -/
structure SearchCall where
  top_k : Int
  filter_file_ids : Option (List PyStr)

/-- Observable behaviour of one `chat` request: the HTTP result, whether/how
the similarity search was invoked, and whether/with which (query, context)
pair the LLM gateway was invoked. -/
structure ChatTrace where
  result : ChatResult
  searchCall : Option SearchCall
  llmCall : Option (PyStr × PyStr)

/-- The fixed zero-match reply of the chat endpoint. -/
def fallbackReply : PyStr :=
  ("I couldn\x27t find any relevant information in the uploaded documents " ++
    "to answer your question.").toList

/-- Model of `round(match.score, 4)` (Python float rounding to 4 decimal
places; no claim depends on the rounded value). -/
def roundTo4 (x : Float) : Float := (x * 10000.0).round / 10000.0

/-- One `sources.append(Source(...))` element: the preview is the first 200
characters of the stored chunk text plus an ellipsis. -/
def mkSource (m : SearchMatch) : Source :=
  { filename := m.metadata.filename
    chunk_text := m.metadata.chunk_text.take 200 ++ "...".toList
    chunk_index := m.metadata.chunk_index
    similarity_score := roundTo4 m.score }

/-- The `for match in search_results.matches` loop: build `context_chunks`
and `sources` in result order. -/
def collectChunks : List SearchMatch → List PyStr × List Source
  | [] => ([], [])
  | m :: rest =>
    let pr := collectChunks rest
    (m.metadata.chunk_text :: pr.1, mkSource m :: pr.2)

/-- The `filter_dict` construction, `if request.file_ids:` — Python truthiness,
so both `None` and an empty list leave the search unfiltered. -/
def chatFilterDict : Option (List PyStr) → Option (List PyStr)
  | none => none
  | some [] => none
  | some (f :: fs) => some (f :: fs)

/-- The `chat` request handler.  Rejects an empty/whitespace-only message
with a 400; otherwise embeds the query (external, no observable state),
invokes the similarity search with the unmodified caller `top_k`; on zero
matches returns the fixed fallback with no sources and no LLM call; otherwise
concatenates the stored chunk texts with a blank line and invokes the LLM. -/
def chat (req : ChatRequest) (searchMatches : List SearchMatch)
    (llmReply : PyStr) : ChatTrace :=
  if req.message = [] ∨ pyStrip req.message = [] then
    ⟨.httpError 400 ("Message cannot be empty".toList), none, none⟩
  else
    let sc := some ⟨req.top_k, chatFilterDict req.file_ids⟩
    match searchMatches with
    | [] => ⟨.response ⟨fallbackReply, [], 0⟩, sc, none⟩
    | _ :: _ =>
      let pr := collectChunks searchMatches
      let context := List.intercalate ['\n', '\n'] pr.1
      ⟨.response ⟨llmReply, pr.2, pr.2.length⟩, sc,
        some (req.message, context)⟩

/-! ## Upload endpoint (`app/api/upload.py`)

External effects are modelled as inputs: `extractOutcome` is what
`process_document` did on the saved file, `embedOutcome` what
`generate_embeddings` did on the chunks, `upsertOutcome` what
`vector_store.upsert_chunks` returned (all three can raise).  `files0` is the
upload directory before the request; the trace records the directory after it
and which pipeline stages were reached. -/

/-- Model of `pathlib.PurePath.suffix` for a plain file name (no directory
separators): the part from the last dot on, provided that dot is neither the
first nor the last character. -/
def pySuffix (name : PyStr) : PyStr :=
  match ((List.range name.length).filter
      (fun i => name.getD i ' ' = '.')).getLast? with
  | none => []
  | some i => if 0 < i ∧ i < name.length - 1 then name.drop i else []

/-- Python `str.lower()` (ASCII case mapping; extensions are ASCII). -/
def pyLower (s : PyStr) : PyStr := s.map Char.toLower

/-- Model of `validate_file`: reject (400) when the lower-cased extension is not
allowed; then reject (400) when the filename is empty.  (An empty filename
has an empty suffix and is already caught by the first check.) -/
def validate_file (filename : PyStr) : Option (Nat × PyStr) :=
  if ¬ ALLOWED_EXTENSIONS.contains (pyLower (pySuffix filename)) then
    some (400, ("File type not allowed. Allowed types: .pdf,.txt,.docx").toList)
  else if filename = [] then
    some (400, "No file provided".toList)
  else none

/-- The upload endpoint result: an `HTTPException` or the success summary
(the summary fields the claims mention). -/
inductive UploadOutcome where
  | httpError (status : Nat) (detail : PyStr)
  | success (file_id : PyStr) (size_bytes num_chunks num_embeddings
      vectors_stored : Nat)

/-- Observable behaviour of one `upload_file` request: the HTTP outcome, the
upload directory after the request, whether the raw bytes were ever written,
whether text extraction was attempted, and whether the vector-store upsert
was invoked. -/
structure UploadTrace where
  outcome : UploadOutcome
  files : List PyStr
  persisted : Bool
  extractionAttempted : Bool
  upsertCalled : Bool

/-- Detail string of a processing failure:
`f"Failed to process document: {str(e)}"`. -/
def processFailDetail (e : PyStr) : PyStr :=
  "Failed to process document: ".toList ++ e

/-- The `upload_file` request handler.  Validation and the size ceiling are
checked before the file is written; the saved name is the generated
`file_id` plus the original (non-lowered) suffix; every failure inside the
`try` block unlinks the saved file and surfaces a 500.  The size check
`len(contents) / (1024 * 1024) > MAX_FILE_SIZE_MB` is exact rational
arithmetic on these magnitudes, modelled in `ℚ`. -/
def upload_file (filename : PyStr) (contentsLen : Nat) (file_id : PyStr)
    (extractOutcome : Except PyStr PyStr)
    (embedOutcome : List PyStr → Except PyStr (List (List Float)))
    (upsertOutcome : Except PyStr Nat)
    (files0 : List PyStr) : UploadTrace :=
  match validate_file filename with
  | some (s, d) => ⟨.httpError s d, files0, false, false, false⟩
  | none =>
    if (contentsLen : ℚ) / (1024 * 1024) > (MAX_FILE_SIZE_MB : ℚ) then
      ⟨.httpError 413 ("File too large. Max Size: 15MB".toList),
        files0, false, false, false⟩
    else
      let unique_filename := file_id ++ pySuffix filename
      let files1 := files0 ++ [unique_filename]
      let cleanup := files1.erase unique_filename
      match extractOutcome with
      | .error e => ⟨.httpError 500 (processFailDetail e), cleanup,
          true, true, false⟩
      | .ok text =>
        if text = [] ∨ pyStrip text = [] then
          ⟨.httpError 500 (processFailDetail
            ("No text could be extracted from the document".toList)),
            cleanup, true, true, false⟩
        else
          match chunk_text text CHUNK_SIZE CHUNK_OVERLAP with
          | .error e => ⟨.httpError 500 (processFailDetail e), cleanup,
              true, true, false⟩
          | .ok chunks =>
            if chunks = [] then
              ⟨.httpError 500 (processFailDetail
                ("No valid chunks created from uploaded document".toList)),
                cleanup, true, true, false⟩
            else
              match embedOutcome chunks with
              | .error e => ⟨.httpError 500 (processFailDetail e), cleanup,
                  true, true, false⟩
              | .ok embeds =>
                match upsertOutcome with
                | .error e => ⟨.httpError 500 (processFailDetail e), cleanup,
                    true, true, true⟩
                | .ok n => ⟨.success file_id contentsLen chunks.length
                    embeds.length n, files1, true, true, true⟩

/-- A concrete stored match used to exercise the chat handler on concrete
inputs. -/
def sampleMatch : SearchMatch :=
  { id := "d1_chunk_0".toList
    score := 0.5
    metadata :=
      { file_id := "d1".toList
        filename := "a.txt".toList
        chunk_index := 0
        chunk_text := "the full stored chunk".toList
        text_length := 21 } }

/-! ## Theorems about the chunker -/

/-- C1 (counterexample): on a 50-character input the splitter emits a single
chunk whose trimmed length is exactly the 50-character threshold, and
`chunk_text` discards it — the output is empty, so a chunk of trimmed length
exactly 50 is NOT kept. -/
theorem chunk_text_drops_trimmed_length_50 :
    (pyStrip (List.replicate 50 'a')).length = 50 ∧
    splitRecF 1000 200 chunkSeparators.length chunkSeparators
      (List.replicate 50 'a') = [List.replicate 50 'a'] ∧
    chunk_text (List.replicate 50 'a') 1000 200 = .ok [] :=
  ⟨by decide, by decide, rfl⟩

/-- C1 (amended): every chunk returned by `chunk_text` has trimmed length
STRICTLY greater than 50; chunks of trimmed length at most 50 (including
exactly 50) are discarded. -/
theorem chunk_text_min_length (text : PyStr) (cs co : Nat)
    (chunks : List PyStr) (h : chunk_text text cs co = .ok chunks) :
    ∀ c ∈ chunks, 50 < (pyStrip c).length := by
  unfold chunk_text at h
  split at h
  · cases h
    intro c hc
    cases hc
  · split at h
    · cases h
    · cases h
      intro c hc
      have h2 := (List.mem_filter.mp hc).2
      simpa using h2

/-- Witness for `chunk_text_min_length` at a concrete input: a 51-character
text is returned as a single chunk and its trimmed length exceeds 50. -/
theorem chunk_text_min_length_witness :
    50 < (pyStrip (List.replicate 51 'a')).length :=
  chunk_text_min_length (List.replicate 51 'a') 1000 200
    [List.replicate 51 'a'] rfl (List.replicate 51 'a')
    (List.mem_singleton.mpr rfl)

/-- C8: `chunk_text` is deterministic — two calls with identical text,
chunk_size and chunk_overlap return identical results (the embedding is a
pure function of exactly these three arguments; no randomness, no external
state). -/
theorem chunk_text_deterministic (t₁ t₂ : PyStr) (s₁ s₂ o₁ o₂ : Nat)
    (ht : t₁ = t₂) (hs : s₁ = s₂) (ho : o₁ = o₂) :
    chunk_text t₁ s₁ o₁ = chunk_text t₂ s₂ o₂ := by
  subst ht hs ho
  rfl

/-- Witness for `chunk_text_deterministic` at a concrete input. -/
theorem chunk_text_deterministic_witness :
    chunk_text ("alpha beta".toList) 1000 200 =
      chunk_text ("alpha beta".toList) 1000 200 :=
  chunk_text_deterministic _ _ _ _ _ _ rfl rfl rfl

/-- C9: on empty or whitespace-only input (trimmed to `[]` by `str.strip`),
`chunk_text` returns `.ok []` for every target size and overlap — an empty
sequence and no raised error (in particular the overlap-larger-than-size
`ValueError` of the splitter constructor is never reached). -/
theorem chunk_text_blank (text : PyStr) (cs co : Nat)
    (h : pyStrip text = []) : chunk_text text cs co = .ok [] := by
  unfold chunk_text
  rw [if_pos (Or.inr h)]

/-- Witness for `chunk_text_blank`: three spaces and a tab, with an overlap
larger than the chunk size (so the no-error half is exercised too). -/
theorem chunk_text_blank_witness :
    pyStrip ("   \t".toList) = [] ∧
    chunk_text ("   \t".toList) 10 200 = .ok [] :=
  ⟨by decide, chunk_text_blank ("   \t".toList) 10 200 (by decide)⟩

/-! ## Theorems about the vector store -/

/-- Helper: the batched-upsert loop counts every vector exactly once. -/
theorem batchTotal_eq (l : List IndexEntry) : batchTotal l = l.length := by
  induction l using batchTotal.induct with
  | case1 => simp [batchTotal]
  | case2 v vs ih =>
    rw [batchTotal]
    rw [ih]
    simp only [List.length_take, List.length_drop, List.length_cons]
    omega

/-- Helper: `buildVectors` produces one entry per zipped (chunk, embedding)
pair. -/
theorem buildVectors_length (f fn : PyStr) :
    ∀ (k : Nat) (cs : List PyStr) (es : List (List Float)),
    cs.length = es.length → (buildVectors f fn k cs es).length = cs.length := by
  intro k cs
  induction cs generalizing k with
  | nil => intro es _; cases es <;> rfl
  | cons c cs ih =>
    intro es hlen
    cases es with
    | nil => cases hlen
    | cons e es =>
      simp only [buildVectors, List.length_cons]
      rw [ih (k + 1) es (by simpa using hlen)]

/-- Helper: every entry `buildVectors` produces carries the given document id
in its metadata. -/
theorem buildVectors_file_id (f fn : PyStr) :
    ∀ (k : Nat) (cs : List PyStr) (es : List (List Float)) (e : IndexEntry),
    e ∈ buildVectors f fn k cs es → e.metadata.file_id = f := by
  intro k cs
  induction cs generalizing k with
  | nil => intro es e he; cases es <;> cases he
  | cons c cs ih =>
    intro es e he
    cases es with
    | nil => cases he
    | cons v es =>
      cases he with
      | head => rfl
      | tail _ hmem => exact ih (k + 1) es e hmem

/-- Helper: the `i`-th entry `buildVectors` produces (offset `k`) has vector
id `{file_id}_chunk_{k+i}`, chunk index `k+i`, the chunk text truncated to
its first 1000 characters, and the full chunk length. -/
theorem buildVectors_getD (f fn : PyStr) :
    ∀ (k i : Nat) (cs : List PyStr) (es : List (List Float)),
    cs.length ≤ es.length → i < cs.length →
    ∃ e ∈ buildVectors f fn k cs es,
      e.id = f ++ "_chunk_".toList ++ (Nat.repr (k + i)).toList ∧
      e.metadata.file_id = f ∧
      e.metadata.chunk_index = k + i ∧
      e.metadata.chunk_text = (cs.getD i []).take 1000 ∧
      e.metadata.text_length = (cs.getD i []).length := by
  intro k i cs
  induction cs generalizing k i with
  | nil => intro es _ hi; cases hi
  | cons c cs ih =>
    intro es hlen hi
    cases es with
    | nil => simp at hlen
    | cons v es =>
      cases i with
      | zero =>
        refine ⟨_, List.mem_cons_self _ _, by simp, rfl, by simp, by simp,
          by simp⟩
      | succ i =>
        have hlen2 : cs.length ≤ es.length := by simpa using hlen
        have hi2 : i < cs.length := by simpa using hi
        obtain ⟨e, hmem, hid, hfid, hidx, htext, htl⟩ :=
          ih (k + 1) i es hlen2 hi2
        have hk : k + 1 + i = k + (i + 1) := by omega
        rw [hk] at hid hidx
        exact ⟨e, List.mem_cons_of_mem _ hmem, hid, hfid, hidx,
          by simpa using htext, by simpa using htl⟩

/-- Helper: removing the one trailing copy of an element absent from the
rest of the list restores the original list. -/
theorem erase_append_self (u : PyStr) :
    ∀ l : List PyStr, u ∉ l → (l ++ [u]).erase u = l := by
  intro l
  induction l with
  | nil => simp
  | cons a l ih =>
    intro h
    simp only [List.mem_cons, not_or] at h
    rw [List.cons_append, List.erase_cons_tail, ih h.2]
    simp only [beq_iff_eq]
    exact fun e => h.1 (e.symm)

/-- C7: for a successful upsert of a document whose id is fresh (no index
entry carries it — the caller generates a fresh uuid), the returned count is
the number of chunks, the index afterwards holds exactly one entry per chunk
for that document, the `i`-th carrying id `{file_id}_chunk_{i}` with its
0-based chunk index; and `delete_by_file_id` leaves no entry of the document
behind on any index state (no orphans). -/
theorem upsert_delete_index_invariant (f fn : PyStr) (chunks : List PyStr)
    (embeds : List (List Float)) (index : List IndexEntry)
    (hlen : chunks.length = embeds.length)
    (hfresh : ∀ e ∈ index, e.metadata.file_id ≠ f) :
    ∃ index2 : List IndexEntry,
      upsert_chunks f fn chunks embeds index = .ok (chunks.length, index2) ∧
      (index2.filter (fun e => e.metadata.file_id = f)).length =
        chunks.length ∧
      (∀ i, i < chunks.length → ∃ e ∈ index2,
        e.id = f ++ "_chunk_".toList ++ (Nat.repr i).toList ∧
        e.metadata.chunk_index = i ∧ e.metadata.file_id = f) ∧
      (∀ idx : List IndexEntry,
        (delete_by_file_id f idx).2.filter
          (fun e => e.metadata.file_id = f) = []) := by
  have hvlen : (buildVectors f fn 0 chunks embeds).length = chunks.length :=
    buildVectors_length f fn 0 chunks embeds hlen
  refine ⟨index.filter (fun e =>
      ¬ ((buildVectors f fn 0 chunks embeds).map (fun v => v.id)).contains
        e.id) ++ buildVectors f fn 0 chunks embeds, ?_, ?_, ?_, ?_⟩
  · simp only [upsert_chunks]
    rw [if_neg (show ¬chunks.length ≠ embeds.length by simp [hlen]),
      batchTotal_eq, hvlen]
  · rw [List.filter_append]
    have h1 : (index.filter (fun e =>
        ¬ ((buildVectors f fn 0 chunks embeds).map (fun v => v.id)).contains
          e.id)).filter (fun e => e.metadata.file_id = f) = [] := by
      apply List.filter_eq_nil_iff.mpr
      intro e he
      simpa using hfresh e (List.mem_of_mem_filter he)
    have h2 : (buildVectors f fn 0 chunks embeds).filter
        (fun e => e.metadata.file_id = f) = buildVectors f fn 0 chunks embeds := by
      apply List.filter_eq_self.mpr
      intro e he
      simpa using buildVectors_file_id f fn 0 chunks embeds e he
    rw [h1, h2, List.nil_append, hvlen]
  · intro i hi
    obtain ⟨e, hmem, hid, hfid, hidx, _, _⟩ :=
      buildVectors_getD f fn 0 i chunks embeds (le_of_eq hlen) hi
    refine ⟨e, List.mem_append_right _ hmem, by simpa using hid,
      by simpa using hidx, hfid⟩
  · intro idx
    simp only [delete_by_file_id, List.filter_filter]
    apply List.filter_eq_nil_iff.mpr
    intro e _
    simp

/-- Witness for `upsert_delete_index_invariant`: a two-chunk document
upserted into an empty index reports two vectors upserted, stores two entries
for the document, and a delete on the empty index holds no entry for it. -/
theorem upsert_delete_index_invariant_witness :
    (upsert_chunks ("d1".toList) ("a.txt".toList)
        ["alpha".toList, "beta".toList] [[], []] []).toOption.map
      (fun p => (p.1, (p.2.filter
        (fun e => e.metadata.file_id = "d1".toList)).length)) =
      some (2, 2) ∧
    (delete_by_file_id ("d1".toList) []).2.filter
      (fun e => e.metadata.file_id = "d1".toList) = [] := by
  obtain ⟨index2, h1, h2, h3, h4⟩ :=
    upsert_delete_index_invariant ("d1".toList) ("a.txt".toList)
      ["alpha".toList, "beta".toList] [[], []] [] (by decide)
      (fun e he => absurd he (List.not_mem_nil e))
  refine ⟨?_, h4 []⟩
  rw [h1]
  simp only [Except.toOption, Option.map]
  rw [h2]
  rfl

/-- Helper: the context-chunk component of the chat loop is the stored chunk
texts of the matches, in order. -/
theorem collectChunks_fst (ms : List SearchMatch) :
    (collectChunks ms).1 = ms.map (fun m => m.metadata.chunk_text) := by
  induction ms with
  | nil => rfl
  | cons m rest ih => simp [collectChunks, ih]

/-- Helper: the sources component of the chat loop is `mkSource` applied in
order. -/
theorem collectChunks_snd (ms : List SearchMatch) :
    (collectChunks ms).2 = ms.map mkSource := by
  induction ms with
  | nil => rfl
  | cons m rest ih => simp [collectChunks, ih]

/-- C10: the metadata stored by the upsert holds, for each chunk, only the
first 1000 characters of the chunk in `chunk_text` while `text_length` records the
full chunk length; consequently each stored `chunk_text` has at most 1000
characters, and every downstream consumer of it in the chat endpoint — the
context pieces and the source previews — sees at most 1000 (respectively at
most 203) characters per chunk. -/
theorem upsert_truncates_metadata_chunk_text :
    (∀ (f fn : PyStr) (cs : List PyStr) (es : List (List Float)) (i : Nat),
      cs.length ≤ es.length → i < cs.length →
      ∃ e ∈ buildVectors f fn 0 cs es,
        e.metadata.chunk_text = (cs.getD i []).take 1000 ∧
        e.metadata.text_length = (cs.getD i []).length ∧
        e.metadata.chunk_text.length ≤ 1000) ∧
    (∀ ms : List SearchMatch,
      (∀ m ∈ ms, m.metadata.chunk_text.length ≤ 1000) →
      (∀ p ∈ (collectChunks ms).1, p.length ≤ 1000) ∧
      (∀ s ∈ (collectChunks ms).2, s.chunk_text.length ≤ 203)) := by
  constructor
  · intro f fn cs es i hlen hi
    obtain ⟨e, hmem, _, _, _, htext, htl⟩ :=
      buildVectors_getD f fn 0 i cs es hlen hi
    refine ⟨e, hmem, htext, htl, ?_⟩
    rw [htext, List.length_take]
    exact Nat.min_le_left _ _
  · intro ms hms
    constructor
    · intro p hp
      rw [collectChunks_fst] at hp
      obtain ⟨m, hm, rfl⟩ := List.mem_map.mp hp
      exact hms m hm
    · intro s hs
      rw [collectChunks_snd] at hs
      obtain ⟨m, hm, rfl⟩ := List.mem_map.mp hs
      simp only [mkSource, List.length_append, List.length_take]
      have h1 := Nat.min_le_left 200 m.metadata.chunk_text.length
      have h3 : ("...".toList).length = 3 := rfl
      omega

/-- Witness for `upsert_truncates_metadata_chunk_text`: the stored chunk text
of a concrete match is within the 1000-character bound and its source preview
within 203. -/
theorem upsert_truncates_metadata_chunk_text_witness :
    sampleMatch.metadata.chunk_text.length ≤ 1000 ∧
    (mkSource sampleMatch).chunk_text.length ≤ 203 := by
  have h := upsert_truncates_metadata_chunk_text.2 [sampleMatch]
    (by
      intro m hm
      rw [List.mem_singleton] at hm
      subst hm
      decide)
  refine ⟨h.1 _ ?_, h.2 _ ?_⟩
  · simp [collectChunks]
  · simp [collectChunks]

/-! ## Theorems about the chat endpoint -/

/-- C2: whenever the similarity search returns at least one match (and the
message passes the emptiness check), the context handed to the LLM gateway is
the blank-line (`"\n\n"`) concatenation of the complete stored chunk texts of
the matches, in result order — each piece is the full `chunk_text` metadata
value, not the 200-character source preview. -/
theorem chat_context_is_full_chunk_texts (req : ChatRequest)
    (ms : List SearchMatch) (llmReply : PyStr)
    (hmsg : ¬(req.message = [] ∨ pyStrip req.message = []))
    (hms : ms ≠ []) :
    (chat req ms llmReply).llmCall =
      some (req.message, List.intercalate ['\n', '\n']
        (ms.map (fun m => m.metadata.chunk_text))) := by
  unfold chat
  rw [if_neg hmsg]
  cases ms with
  | nil => exact absurd rfl hms
  | cons m rest => simp [collectChunks_fst]

/-- Witness for `chat_context_is_full_chunk_texts`: one match whose stored
chunk text appears in full in the context. -/
theorem chat_context_is_full_chunk_texts_witness :
    (chat { message := "where is the report".toList }
      [sampleMatch] ("ok".toList)).llmCall =
      some ("where is the report".toList,
        List.intercalate ['\n', '\n']
          ([sampleMatch].map (fun m => m.metadata.chunk_text))) :=
  chat_context_is_full_chunk_texts _ _ _ (by decide)
    (List.cons_ne_nil _ _)

/-- C6: a chat request whose similarity search returns zero matches gets the
fixed fallback reply with an empty source list and `num_sources = 0`, and the
LLM gateway is never invoked; the handler returns a normal response, not an
error. -/
theorem chat_zero_matches_fallback (req : ChatRequest) (llmReply : PyStr)
    (hmsg : ¬(req.message = [] ∨ pyStrip req.message = [])) :
    (chat req [] llmReply).result = .response ⟨fallbackReply, [], 0⟩ ∧
    (chat req [] llmReply).llmCall = none := by
  unfold chat
  rw [if_neg hmsg]
  exact ⟨rfl, rfl⟩

/-- Witness for `chat_zero_matches_fallback` at a concrete request. -/
theorem chat_zero_matches_fallback_witness :
    (chat { message := "any reports?".toList } []
      ("unused".toList)).result = .response ⟨fallbackReply, [], 0⟩ ∧
    (chat { message := "any reports?".toList } []
      ("unused".toList)).llmCall = none :=
  chat_zero_matches_fallback _ _ (by decide)

/-- C3 (counterexample): a request with `top_k = 0` is NOT rejected with a
client error — the handler passes `top_k = 0` straight to the similarity
search and returns a normal response (here, the zero-match fallback).
Neither pydantic (`top_k: int = 5`) nor the handler validates positivity. -/
theorem chat_top_k_zero_not_rejected :
    (chat { message := "hi".toList, top_k := 0 } [] []).searchCall =
      some ⟨0, none⟩ ∧
    (chat { message := "hi".toList, top_k := 0 } [] []).result =
      .response ⟨fallbackReply, [], 0⟩ :=
  ⟨rfl, rfl⟩

/-- C3 (amended): `top_k` defaults to 5 when the caller omits it and is
caller-overridable, but it is not validated: every request that passes the
message check — whatever the sign of its `top_k` — invokes the similarity
search with the `top_k` of the caller unchanged. -/
theorem chat_top_k_default_and_passthrough :
    (∀ (m : PyStr) (fids : Option (List PyStr)),
      ({ message := m, file_ids := fids } : ChatRequest).top_k = 5) ∧
    (∀ (m : PyStr) (fids : Option (List PyStr)) (k : Int),
      ({ message := m, file_ids := fids, top_k := k } : ChatRequest).top_k
        = k) ∧
    (∀ (req : ChatRequest) (ms : List SearchMatch) (r : PyStr),
      ¬(req.message = [] ∨ pyStrip req.message = []) →
      (chat req ms r).searchCall =
        some ⟨req.top_k, chatFilterDict req.file_ids⟩) := by
  refine ⟨fun _ _ => rfl, fun _ _ _ => rfl, ?_⟩
  intro req ms r hmsg
  unfold chat
  rw [if_neg hmsg]
  cases ms <;> rfl

/-- Witness for `chat_top_k_default_and_passthrough`: a request with
`top_k = -7` reaches the search with `-7`. -/
theorem chat_top_k_default_and_passthrough_witness :
    (chat { message := "hi".toList, top_k := -7 } [] []).searchCall =
      some ⟨-7, chatFilterDict none⟩ :=
  chat_top_k_default_and_passthrough.2.2
    { message := "hi".toList, top_k := -7 } [] [] (by decide)

/-! ## Theorems about the upload endpoint -/

/-- Helper: the rational size-ceiling comparison of `upload_file` is the
decidable byte comparison against 15 MiB. -/
theorem size_check_iff (n : Nat) :
    ((n : ℚ) / (1024 * 1024) > (MAX_FILE_SIZE_MB : ℚ)) ↔ 15728640 < n := by
  have h15 : ((MAX_FILE_SIZE_MB : ℚ)) = 15 := by norm_num [MAX_FILE_SIZE_MB]
  rw [gt_iff_lt, h15, lt_div_iff₀ (by norm_num)]
  rw [show (15 : ℚ) * (1024 * 1024) = 15728640 by norm_num]
  exact_mod_cast Iff.rfl

/-- C4: whenever the pipeline fails after the raw file was persisted — failed
or empty extraction, empty chunking (including the splitter constructor
raising), embedding failure, or vector-store upsert failure — the handler
unlinks the saved file before surfacing the error: the upload directory ends
exactly as it started (the generated storage name is fresh: the saved name is
built from a fresh uuid) and the surfaced error is a 500. -/
theorem upload_failure_cleans_up (filename : PyStr) (contentsLen : Nat)
    (file_id : PyStr) (extractOutcome : Except PyStr PyStr)
    (embedOutcome : List PyStr → Except PyStr (List (List Float)))
    (upsertOutcome : Except PyStr Nat) (files0 : List PyStr)
    (hfresh : file_id ++ pySuffix filename ∉ files0) (s : Nat) (d : PyStr)
    (hp : (upload_file filename contentsLen file_id extractOutcome
      embedOutcome upsertOutcome files0).persisted = true)
    (he : (upload_file filename contentsLen file_id extractOutcome
      embedOutcome upsertOutcome files0).outcome = .httpError s d) :
    (upload_file filename contentsLen file_id extractOutcome embedOutcome
      upsertOutcome files0).files = files0 ∧ s = 500 := by
  have herase : (files0 ++ [file_id ++ pySuffix filename]).erase
      (file_id ++ pySuffix filename) = files0 :=
    erase_append_self _ files0 hfresh
  rcases hval : validate_file filename with _ | ⟨sv, dv⟩
  · by_cases hsz : (contentsLen : ℚ) / (1024 * 1024) > (MAX_FILE_SIZE_MB : ℚ)
    · simp only [upload_file, hval, if_pos hsz] at hp
      exact Bool.noConfusion hp
    · cases extractOutcome with
      | error eerr =>
        simp only [upload_file, hval, if_neg hsz] at he ⊢
        injection he with h1 h2
        exact ⟨herase, h1.symm⟩
      | ok etext =>
        by_cases htb : etext = [] ∨ pyStrip etext = []
        · simp only [upload_file, hval, if_neg hsz, if_pos htb] at he ⊢
          injection he with h1 h2
          exact ⟨herase, h1.symm⟩
        · rcases hct : chunk_text etext CHUNK_SIZE CHUNK_OVERLAP with
            ⟨cerr⟩ | ⟨chunks⟩
          · simp only [upload_file, hval, if_neg hsz, if_neg htb, hct]
              at he ⊢
            injection he with h1 h2
            exact ⟨herase, h1.symm⟩
          · by_cases hce : chunks = []
            · simp only [upload_file, hval, if_neg hsz, if_neg htb, hct,
                if_pos hce] at he ⊢
              injection he with h1 h2
              exact ⟨herase, h1.symm⟩
            · rcases hemb : embedOutcome chunks with ⟨eer⟩ | ⟨embeds⟩
              · simp only [upload_file, hval, if_neg hsz, if_neg htb, hct,
                  if_neg hce, hemb] at he ⊢
                injection he with h1 h2
                exact ⟨herase, h1.symm⟩
              · cases upsertOutcome with
                | error uer =>
                  simp only [upload_file, hval, if_neg hsz, if_neg htb, hct,
                    if_neg hce, hemb] at he ⊢
                  injection he with h1 h2
                  exact ⟨herase, h1.symm⟩
                | ok n =>
                  simp only [upload_file, hval, if_neg hsz, if_neg htb, hct,
                    if_neg hce, hemb] at he
                  exact UploadOutcome.noConfusion he
  · simp only [upload_file, hval] at hp
    exact Bool.noConfusion hp

/-- Witness for `upload_failure_cleans_up`: a valid `.txt` upload whose text
extraction raises; the upload directory (initially empty) ends empty and the
error is a 500. -/
theorem upload_failure_cleans_up_witness :
    (upload_file ("a.txt".toList) 10 ("f1".toList)
      (.error ("boom".toList)) (fun _ => .ok []) (.ok 0) []).files = [] ∧
    (500 : Nat) = 500 :=
  upload_failure_cleans_up ("a.txt".toList) 10 ("f1".toList)
    (.error ("boom".toList)) (fun _ => .ok []) (.ok 0) []
    (List.not_mem_nil _) 500 (processFailDetail ("boom".toList))
    (by
      have hsz : ¬ ((10 : Nat) : ℚ) / (1024 * 1024) > (MAX_FILE_SIZE_MB : ℚ) :=
        fun h => absurd ((size_check_iff 10).mp h) (by decide)
      have hval : validate_file ("a.txt".toList) = none := by decide
      simp only [upload_file, hval, if_neg hsz])
    (by
      have hsz : ¬ ((10 : Nat) : ℚ) / (1024 * 1024) > (MAX_FILE_SIZE_MB : ℚ) :=
        fun h => absurd ((size_check_iff 10).mp h) (by decide)
      have hval : validate_file ("a.txt".toList) = none := by decide
      simp only [upload_file, hval, if_neg hsz])

/-- C5: an upload with a disallowed extension is rejected with a 400
validation error, and an allowed upload exceeding the size ceiling is
rejected with a 413; in both cases nothing is persisted, text extraction is
never attempted, the vector-store upsert is never invoked, and the upload
directory is unchanged. -/
theorem upload_rejections_leave_state_unchanged (filename : PyStr)
    (contentsLen : Nat) (file_id : PyStr)
    (extractOutcome : Except PyStr PyStr)
    (embedOutcome : List PyStr → Except PyStr (List (List Float)))
    (upsertOutcome : Except PyStr Nat) (files0 : List PyStr) :
    (ALLOWED_EXTENSIONS.contains (pyLower (pySuffix filename)) = false →
      upload_file filename contentsLen file_id extractOutcome embedOutcome
        upsertOutcome files0 =
      ⟨.httpError 400
        ("File type not allowed. Allowed types: .pdf,.txt,.docx").toList,
        files0, false, false, false⟩) ∧
    (ALLOWED_EXTENSIONS.contains (pyLower (pySuffix filename)) = true →
      (contentsLen : ℚ) / (1024 * 1024) > (MAX_FILE_SIZE_MB : ℚ) →
      upload_file filename contentsLen file_id extractOutcome embedOutcome
        upsertOutcome files0 =
      ⟨.httpError 413 ("File too large. Max Size: 15MB").toList,
        files0, false, false, false⟩) := by
  constructor
  · intro hext
    have hmem : pyLower (pySuffix filename) ∉ ALLOWED_EXTENSIONS := by
      simpa using hext
    have hval : validate_file filename =
        some (400,
          ("File type not allowed. Allowed types: .pdf,.txt,.docx").toList) := by
      simp [validate_file, hmem]
    simp only [upload_file, hval]
  · intro hext hsz
    have hmem : pyLower (pySuffix filename) ∈ ALLOWED_EXTENSIONS := by
      simpa using hext
    have hfn : filename ≠ [] := by
      intro h
      rw [h] at hext
      exact absurd hext (by decide)
    have hval : validate_file filename = none := by
      simp [validate_file, hmem, hfn]
    simp only [upload_file, hval, if_pos hsz]

/-- Witness for `upload_rejections_leave_state_unchanged`: an `.exe` upload
is rejected 400 with nothing persisted; a 16 MiB `.pdf` upload is rejected
413 with nothing persisted and no extraction attempted. -/
theorem upload_rejections_leave_state_unchanged_witness :
    (upload_file ("malware.exe".toList) 10 ("f2".toList) (.ok ("t".toList))
      (fun _ => .ok []) (.ok 0) ["keep".toList] =
      ⟨.httpError 400
        ("File type not allowed. Allowed types: .pdf,.txt,.docx").toList,
        ["keep".toList], false, false, false⟩) ∧
    (upload_file ("doc.pdf".toList) (16 * 1024 * 1024) ("f3".toList)
      (.ok ("t".toList)) (fun _ => .ok []) (.ok 0) ["keep".toList] =
      ⟨.httpError 413 ("File too large. Max Size: 15MB").toList,
        ["keep".toList], false, false, false⟩) :=
  ⟨(upload_rejections_leave_state_unchanged ("malware.exe".toList) 10
      ("f2".toList) (.ok ("t".toList)) (fun _ => .ok []) (.ok 0)
      ["keep".toList]).1 (by decide),
    (upload_rejections_leave_state_unchanged ("doc.pdf".toList)
      (16 * 1024 * 1024) ("f3".toList) (.ok ("t".toList)) (fun _ => .ok [])
      (.ok 0) ["keep".toList]).2 (by decide)
      ((size_check_iff (16 * 1024 * 1024)).mpr (by decide))⟩
